import Mathlib

/-!
Shallow embedding of the Upgrade Assistant reindex subsystem
(`x-pack/plugins/upgrade_assistant` reindex service and worker).

Two generations of the service live in the repository:
* `V0` — the earlier `reindex_service.ts` (src/unnamed/part_007), whose lock
  handling (`acquireLock` / `releaseLock`) is inlined in the service;
* `Svc` — the later `reindex_service.ts` (src/unnamed/part_006), which
  delegates persistence to a `reindex_actions` module and adds the ML
  upgrade-mode steps.

The `reindex_actions` module, `index_settings` module and the
`common/types` enums are not part of the source tree here; where a claim
depends on them they are modelled from the specification (each such
definition carries a `Modelled from the spec:` doc comment).

Timestamps are modelled as integer seconds, percentages as exact rationals,
and the cluster as an environment of response functions plus an explicit
log of issued cluster calls.
-/

namespace Reindex

/-- Modelled from the spec: the `ReindexStatus` enum of `common/types`
(not under src/): `inProgress`, `paused`, `completed`, `failed`,
`cancelled`. -/
inductive ReindexStatus
  | inProgress
  | paused
  | completed
  | failed
  | cancelled
  deriving DecidableEq, Repr

/-- Modelled from the spec: the `ReindexStep` enum of `common/types`
(not under src/), in state-machine order
`created → mlUpgradeModeSet → readonly → newIndexCreated → reindexStarted
 → reindexCompleted → aliasCreated → mlUpgradeModeUnset`. -/
inductive ReindexStep
  | created
  | mlUpgradeModeSet
  | readonly
  | newIndexCreated
  | reindexStarted
  | reindexCompleted
  | aliasCreated
  | mlUpgradeModeUnset
  deriving DecidableEq, Repr

/-- Position of a step in the state-machine order. -/
def ReindexStep.ord : ReindexStep → Nat
  | .created => 0
  | .mlUpgradeModeSet => 1
  | .readonly => 2
  | .newIndexCreated => 3
  | .reindexStarted => 4
  | .reindexCompleted => 5
  | .aliasCreated => 6
  | .mlUpgradeModeUnset => 7

/-- Persisted attributes of a reindex operation (spec §3; the
`ReindexOperation` interface of `common/types`).  `locked` is an integer
timestamp in seconds (the source stores a formatted moment). -/
structure ReindexOperation where
  indexName : String
  newIndexName : String
  status : ReindexStatus
  lastCompletedStep : ReindexStep
  locked : Option Int
  reindexTaskId : Option String
  reindexTaskPercComplete : Option ℚ
  errorMessage : Option String
  deriving DecidableEq, Repr

/-- A saved object wrapping the attributes with a store id and an
optimistic-concurrency version. -/
structure ReindexSavedObject where
  id : String
  version : Nat
  attributes : ReindexOperation
  deriving DecidableEq, Repr

/-- Errors thrown by the service.  Mirrors the `Boom` helpers used in the
source (`Boom.notFound`, `Boom.conflict`, `Boom.badImplementation`,
`Boom.badData`) plus plain `new Error(...)`. -/
inductive BoomError
  | notFound (message : String)
  | conflict (message : String)
  | badImplementation (message : String)
  | badData (message : String)
  | plainError (message : String)
  deriving DecidableEq, Repr

/-- The message carried by an error. -/
def BoomError.message : BoomError → String
  | .notFound m => m
  | .conflict m => m
  | .badImplementation m => m
  | .badData m => m
  | .plainError m => m

/-- The string written into `errorMessage` by the trap in
`processNextStep` (`e instanceof Error ? e.stack : e.toString()`).  A
JavaScript `Error`'s stack and string rendering both begin with the error
class name, so the rendering is never empty; we model it as the class-name
prefix followed by the message. -/
def renderError (e : BoomError) : String := "Error: " ++ e.message

/-- `LOCK_WINDOW = moment.duration(90, 'seconds')`, in seconds. -/
def lockWindow : Int := 90

/-- Bump the saved object's version and update its attributes, as a
successful optimistic-concurrency `client.update` does. -/
def upd (op : ReindexSavedObject) (f : ReindexOperation → ReindexOperation) :
    ReindexSavedObject :=
  { op with version := op.version + 1, attributes := f op.attributes }

end Reindex

namespace V0

open Reindex

/-- `acquireLock` of the earlier service (src/unnamed/part_007 lines
60–78).  Faithful to the source's use of moment: in
`now.subtract(LOCK_WINDOW) < lockedTime` the call `subtract` MUTATES
`now`, so when the lock is stolen the subsequent
`locked: now.format()` stamps `now − LOCK_WINDOW`, not the attempt
time. -/
def acquireLock (now : Int) (reindexOp : ReindexSavedObject) :
    Except BoomError ReindexSavedObject :=
  match reindexOp.attributes.locked with
  | some lockedTime =>
    if now - lockWindow < lockedTime then
      .error (.conflict "Another Kibana process is currently modifying this reindex operation.")
    else
      .ok (upd reindexOp (fun a => { a with locked := some (now - lockWindow) }))
  | none => .ok (upd reindexOp (fun a => { a with locked := some now }))

/-- `releaseLock` of the earlier service: stores `locked: null`. -/
def releaseLock (reindexOp : ReindexSavedObject) : ReindexSavedObject :=
  upd reindexOp (fun a => { a with locked := none })

/-- The destination name `${indexName}-reindex-${i}`. -/
def candidateName (indexName : String) (i : Nat) : String :=
  indexName ++ "-reindex-" ++ toString i

/-- The loop body of `getNewIndexName` over the list of attempt indices
(`for (const i of range(0, attempts))`). -/
def getNewIndexNameAux (indexExists : String → Bool) (indexName : String) :
    List Nat → Except BoomError String
  | [] =>
    .error (.plainError
      "Could not generate an indexName that does not already exist after 100 attempts.")
  | i :: rest =>
    if indexExists (candidateName indexName i) then
      getNewIndexNameAux indexExists indexName rest
    else
      .ok (candidateName indexName i)

/-- `getNewIndexName` of src/unnamed/part_007 lines 146–157:
iterates `i` over `range(0, attempts)` (default 100) and returns the
first candidate `${indexName}-reindex-${i}` that does not already exist;
throws after exhausting all attempts. -/
def getNewIndexName (indexExists : String → Bool) (indexName : String)
    (attempts : Nat := 100) : Except BoomError String :=
  getNewIndexNameAux indexExists indexName (List.range attempts)

end V0

namespace Svc

open Reindex

/-- A cluster node as consumed by `validateNodesMinimumVersion`
(src/unnamed/part_006 lines 223–244); the version string has already been
split into major/minor by `VERSION_REGEX`. -/
structure NodeInfo where
  name : String
  major : Nat
  minor : Nat
  deriving DecidableEq, Repr

/-- `taskResponse.task.status` of the tasks API. -/
structure TaskStatus where
  created : Nat
  total : Nat
  deriving DecidableEq, Repr

/-- `tasks.get` response: completion flag, progress counters, and the
`response.failures` list (each failure already rendered to its JSON
string, as `JSON.stringify` does in the source). -/
structure TaskResponse where
  completed : Bool
  status : TaskStatus
  failures : List String
  deriving DecidableEq, Repr

/-- One entry of the `actions` array of an `indices.updateAliases` call:
either `{add: {index, alias, ...props}}` (the spread copies the existing
alias's properties, e.g. its filter) or `{remove_index: {index}}`. -/
inductive AliasAction
  | add (index : String) (aliasName : String) (props : List (String × String))
  | removeIndex (index : String)
  deriving DecidableEq, Repr

/-- A cluster call issued by a step body, in issue order. -/
inductive ClusterCall
  | indicesExists (index : String)
  | nodesInfo
  | mlSetUpgradeMode (enabled : Bool)
  | putSettings (index : String)
  | getFlatSettings (index : String)
  | createIndex (index : String)
  | reindexDispatch (source : String) (dest : String)
      (scriptPaths : Option (List (List String)))
  | tasksGet (taskId : String)
  | deleteTask (index : String) (taskId : String)
  | getAlias (index : String)
  | updateAliases (actions : List AliasAction)
  | cleanup (index : String)
  deriving DecidableEq, Repr

/-- The cluster's responses, modelled as a passive environment consulted
by the step bodies. -/
structure ClusterEnv where
  /-- `indices.exists` response per index name. -/
  indexExists : String → Bool
  /-- Nodes returned by the `/_nodes` transport request. -/
  nodes : List NodeInfo
  /-- `acknowledged` of `POST /_ml/set_upgrade_mode?enabled=true`. -/
  mlEnableAck : Bool
  /-- `acknowledged` of `POST /_ml/set_upgrade_mode?enabled=false`. -/
  mlDisableAck : Bool
  /-- `acknowledged` of `indices.putSettings`. -/
  settingsAck : Bool
  /-- Whether `actions.getFlatSettings` finds the index (it resolves to
  null when the index does not exist). -/
  flatSettingsExist : String → Bool
  /-- `acknowledged` of `indices.create`. -/
  createAck : Bool
  /-- Modelled from the spec: `actions.getBooleanFieldPaths` of the
  missing `reindex_actions` module — the boolean-field paths of the
  source index's mapping. -/
  booleanFieldPaths : String → List (List String)
  /-- The task id returned by the async `reindex` dispatch. -/
  reindexTask : String
  /-- `tasks.get` response per task id. -/
  taskResponse : String → TaskResponse
  /-- `result` of deleting the task document from the `.tasks` index. -/
  deleteTaskResult : String → String
  /-- Existing aliases of an index (`indices.getAlias`): alias name with
  its properties. -/
  aliases : String → List (String × List (String × String))
  /-- `acknowledged` of `indices.updateAliases`. -/
  aliasAck : Bool
  /-- Modelled from the spec: `actions.isMlIndex` of the missing
  `reindex_actions` module — whether the index is an ML-system index. -/
  isMlIndex : String → Bool

/-- Result of one step body: the updated record or the thrown error, the
ML counter after the step, and the cluster calls issued. -/
structure StepResult where
  res : Except BoomError ReindexSavedObject
  ml : Int
  calls : List ClusterCall
  deriving Repr

/-- `validateNodesMinimumVersion` (src/unnamed/part_006 lines 223–244):
every node must satisfy `major > minMajor ∨ (major = minMajor ∧ minor ≥
minMinor)`, otherwise an error listing the outdated nodes is thrown. -/
def validateNodesMinimumVersion (env : ClusterEnv) (minMajor minMinor : Nat) :
    Except BoomError Unit :=
  let outDatedNodes := env.nodes.filter fun n =>
    !(n.major > minMajor || (n.major == minMajor && n.minor >= minMinor))
  if outDatedNodes.length > 0 then
    .error (.plainError
      ("Some nodes are not on minimum version required: "
        ++ String.intercalate "," (outDatedNodes.map NodeInfo.name)))
  else
    .ok ()

/-- `setMlUpgradeMode` (src/unnamed/part_006 lines 251–277): non-ML
indices only advance the marker; ML indices increment the ML counter,
validate node versions, turn ML upgrade mode on (requires
acknowledgement), then advance the marker.  `incrementMlReindexes` and
`runWhileMlLocked` are modelled from the spec (the `reindex_actions`
module is not under src/): the increment adds one to the counter and the
ML lease bracketing is elided. -/
def setMlUpgradeMode (env : ClusterEnv) (ml : Int) (reindexOp : ReindexSavedObject) :
    StepResult :=
  if !(env.isMlIndex reindexOp.attributes.indexName) then
    { res := .ok (upd reindexOp fun a => { a with lastCompletedStep := .mlUpgradeModeSet }),
      ml := ml, calls := [] }
  else
    let ml1 := ml + 1
    match validateNodesMinimumVersion env 6 7 with
    | .error e => { res := .error e, ml := ml1, calls := [.nodesInfo] }
    | .ok _ =>
      if env.mlEnableAck then
        { res := .ok (upd reindexOp fun a => { a with lastCompletedStep := .mlUpgradeModeSet }),
          ml := ml1, calls := [.nodesInfo, .mlSetUpgradeMode true] }
      else
        { res := .error (.plainError "Could not stop ML jobs"),
          ml := ml1, calls := [.nodesInfo, .mlSetUpgradeMode true] }

/-- `setReadonly` (src/unnamed/part_006 lines 284–296): apply
`index.blocks.write` to the source index; on acknowledgement advance to
`readonly`, otherwise throw. -/
def setReadonly (env : ClusterEnv) (ml : Int) (reindexOp : ReindexSavedObject) :
    StepResult :=
  let indexName := reindexOp.attributes.indexName
  if env.settingsAck then
    { res := .ok (upd reindexOp fun a => { a with lastCompletedStep := .readonly }),
      ml := ml, calls := [.putSettings indexName] }
  else
    { res := .error (.plainError "Index could not be set to readonly."),
      ml := ml, calls := [.putSettings indexName] }

/-- `createNewIndex` (src/unnamed/part_006 lines 302–326): fetch the
source's flat settings (404 when missing), create the destination index
from the transformed settings/mappings (the `transformFlatSettings`
output does not affect any claim and is left out of the call datum), and
advance to `newIndexCreated` on acknowledgement. -/
def createNewIndex (env : ClusterEnv) (ml : Int) (reindexOp : ReindexSavedObject) :
    StepResult :=
  let indexName := reindexOp.attributes.indexName
  let newIndexName := reindexOp.attributes.newIndexName
  if !(env.flatSettingsExist indexName) then
    { res := .error (.notFound ("Index " ++ indexName ++ " does not exist.")),
      ml := ml, calls := [.getFlatSettings indexName] }
  else if env.createAck then
    { res := .ok (upd reindexOp fun a => { a with lastCompletedStep := .newIndexCreated }),
      ml := ml, calls := [.getFlatSettings indexName, .createIndex newIndexName] }
  else
    { res := .error (.badImplementation ("Index could not be created: " ++ newIndexName)),
      ml := ml, calls := [.getFlatSettings indexName, .createIndex newIndexName] }

/-- `startReindexing` (src/unnamed/part_006 lines 332–403): dispatch the
async reindex (attaching the boolean-coercion script exactly when the
boolean-field-path list is non-empty), then record the task id, reset the
percentage to 0 and advance to `reindexStarted`. -/
def startReindexing (env : ClusterEnv) (ml : Int) (reindexOp : ReindexSavedObject) :
    StepResult :=
  let indexName := reindexOp.attributes.indexName
  let newIndexName := reindexOp.attributes.newIndexName
  let paths := env.booleanFieldPaths indexName
  let script := if paths.length != 0 then some paths else none
  { res := .ok (upd reindexOp fun a =>
      { a with lastCompletedStep := .reindexStarted,
               reindexTaskId := some env.reindexTask,
               reindexTaskPercComplete := some 0 }),
    ml := ml,
    calls := [.reindexDispatch indexName newIndexName script] }

/-- `updateReindexStatus` (src/unnamed/part_006 lines 409–446): poll the
task.  If completed with `created < total`, throw `badData` quoting the
first failure; if completed successfully, delete the task document from
`.tasks` (its `result` must be `deleted`), set the percentage to 1 and
advance to `reindexCompleted`; if not completed, only update the
percentage to `created / total`. -/
def updateReindexStatus (env : ClusterEnv) (ml : Int) (reindexOp : ReindexSavedObject) :
    StepResult :=
  let taskId := reindexOp.attributes.reindexTaskId.getD ""
  let taskResponse := env.taskResponse taskId
  if taskResponse.completed then
    if taskResponse.status.created < taskResponse.status.total then
      let failureExample := taskResponse.failures.headD "undefined"
      { res := .error (.badData ("Reindexing failed with failures like: " ++ failureExample)),
        ml := ml, calls := [.tasksGet taskId] }
    else if env.deleteTaskResult taskId != "deleted" then
      { res := .error (.badImplementation ("Could not delete reindexing task " ++ taskId)),
        ml := ml, calls := [.tasksGet taskId, .deleteTask ".tasks" taskId] }
    else
      { res := .ok (upd reindexOp fun a =>
          { a with lastCompletedStep := .reindexCompleted,
                   reindexTaskPercComplete := some 1 }),
        ml := ml, calls := [.tasksGet taskId, .deleteTask ".tasks" taskId] }
  else
    let perc : ℚ := (taskResponse.status.created : ℚ) / (taskResponse.status.total : ℚ)
    { res := .ok (upd reindexOp fun a => { a with reindexTaskPercComplete := some perc }),
      ml := ml, calls := [.tasksGet taskId] }

/-- The `actions` array built by `switchAlias`: the new alias for the
source name, removal of the source index, and one re-attaching `add` per
existing alias of the source (its properties spread into the action). -/
def switchAliasActions (reindexOp : ReindexSavedObject)
    (existingAliases : List (String × List (String × String))) : List AliasAction :=
  [AliasAction.add reindexOp.attributes.newIndexName reindexOp.attributes.indexName [],
   AliasAction.removeIndex reindexOp.attributes.indexName]
  ++ existingAliases.map fun p =>
      AliasAction.add reindexOp.attributes.newIndexName p.1 p.2

/-- `switchAlias` (src/unnamed/part_006 lines 452–482): read the existing
aliases, issue one atomic `indices.updateAliases` call, and on
acknowledgement advance to `aliasCreated`, with `status` set to
`completed` unless the index is an ML index (which stays
`inProgress`). -/
def switchAlias (env : ClusterEnv) (ml : Int) (reindexOp : ReindexSavedObject) :
    StepResult :=
  let indexName := reindexOp.attributes.indexName
  let existingAliases := env.aliases indexName
  let acts := switchAliasActions reindexOp existingAliases
  if env.aliasAck then
    { res := .ok (upd reindexOp fun a =>
        { a with lastCompletedStep := .aliasCreated,
                 status := if env.isMlIndex indexName then .inProgress else .completed }),
      ml := ml, calls := [.getAlias indexName, .updateAliases acts] }
  else
    { res := .error (.badImplementation "Index aliases could not be created."),
      ml := ml, calls := [.getAlias indexName, .updateAliases acts] }

/-- `unsetMlUpgradeMode` (src/unnamed/part_006 lines 488–518): non-ML
indices just complete; ML indices decrement the ML counter
(`decrementMlReindexes`, modelled from the spec as subtracting one) and,
exactly when the counter is zero afterwards, turn ML upgrade mode off
(requires acknowledgement); then the record completes. -/
def unsetMlUpgradeMode (env : ClusterEnv) (ml : Int) (reindexOp : ReindexSavedObject) :
    StepResult :=
  if !(env.isMlIndex reindexOp.attributes.indexName) then
    { res := .ok (upd reindexOp fun a =>
        { a with lastCompletedStep := .mlUpgradeModeUnset, status := .completed }),
      ml := ml, calls := [] }
  else
    let ml1 := ml - 1
    if ml1 == 0 then
      if env.mlDisableAck then
        { res := .ok (upd reindexOp fun a =>
            { a with lastCompletedStep := .mlUpgradeModeUnset, status := .completed }),
          ml := ml1, calls := [.mlSetUpgradeMode false] }
      else
        { res := .error (.plainError "Could not resume ML jobs"),
          ml := ml1, calls := [.mlSetUpgradeMode false] }
    else
      { res := .ok (upd reindexOp fun a =>
          { a with lastCompletedStep := .mlUpgradeModeUnset, status := .completed }),
        ml := ml1, calls := [] }

/-- The `switch` on `lastCompletedStep` inside `processNextStep`
(src/unnamed/part_006 lines 570–594); the `default` branch (reached at
the terminal `mlUpgradeModeUnset`) leaves the record untouched. -/
def stepBody (env : ClusterEnv) (ml : Int) (reindexOp : ReindexSavedObject) :
    StepResult :=
  match reindexOp.attributes.lastCompletedStep with
  | .created => setMlUpgradeMode env ml reindexOp
  | .mlUpgradeModeSet => setReadonly env ml reindexOp
  | .readonly => createNewIndex env ml reindexOp
  | .newIndexCreated => startReindexing env ml reindexOp
  | .reindexStarted => updateReindexStatus env ml reindexOp
  | .reindexCompleted => switchAlias env ml reindexOp
  | .aliasCreated => unsetMlUpgradeMode env ml reindexOp
  | .mlUpgradeModeUnset => { res := .ok reindexOp, ml := ml, calls := [] }

/-- Modelled from the spec: the lease test of `actions.runWhileLocked`
(the `reindex_actions` module is not under src/) — a lock is fresh, and
may not be stolen, when it is set and newer than `now − 90 s` (spec
§4.3 lease discipline). -/
def isFreshLock (now : Int) (locked : Option Int) : Bool :=
  match locked with
  | none => false
  | some t => now - lockWindow < t

/-- Stamp `locked = now` (the lease-acquire write of
`actions.runWhileLocked`, spec §4.3 step 1). -/
def lockStamp (now : Int) (op : ReindexSavedObject) : ReindexSavedObject :=
  upd op fun a => { a with locked := some now }

/-- Clear `locked` (the lease-release write of `actions.runWhileLocked`,
spec §4.3 step 4, taken on every exit). -/
def clearLock (op : ReindexSavedObject) : ReindexSavedObject :=
  upd op fun a => { a with locked := none }

/-- The trap's store write: `status = failed` and the error's rendering
in `errorMessage` (src/unnamed/part_006 lines 597–600). -/
def failStamp (e : BoomError) (op : ReindexSavedObject) : ReindexSavedObject :=
  upd op fun a => { a with status := .failed, errorMessage := some (renderError e) }

/-- `processNextStep` (src/unnamed/part_006 lines 567–607).  The
`actions.runWhileLocked` bracketing is modelled from the spec: stamp
`locked = now` (failing with `Conflict` on a fresh foreign lock), run the
step body, and always clear `locked` on exit.  Any error from the step
body is trapped: the record is stamped `status = failed` with the error's
rendering in `errorMessage`, and `cleanupChanges` (modelled from the
spec as a cluster call reversing the write block) runs for the source
index. -/
def processNextStep (env : ClusterEnv) (ml : Int) (now : Int)
    (reindexOp : ReindexSavedObject) : StepResult :=
  if isFreshLock now reindexOp.attributes.locked then
    { res := .error (.conflict "Another Kibana process is currently modifying this reindex operation."),
      ml := ml, calls := [] }
  else
    let body := stepBody env ml (lockStamp now reindexOp)
    match body.res with
    | .ok r =>
      { res := .ok (clearLock r), ml := body.ml, calls := body.calls }
    | .error e =>
      { res := .ok (clearLock (failStamp e (lockStamp now reindexOp))),
        ml := body.ml,
        calls := body.calls ++ [.cleanup reindexOp.attributes.indexName] }

/-- A store mutation performed by `createReindexOperation`. -/
inductive StoreCall
  | deleteOp (id : String)
  | createOp (indexName : String)
  deriving DecidableEq, Repr

/-- Modelled from the spec: the record built by `actions.createReindexOp`
of the missing `reindex_actions` module — initial fields as in spec §3
(and as the earlier service's `client.create` call writes them):
`status = inProgress`, `lastCompletedStep = created`, everything else
empty. -/
def newReindexOp (freshId : String) (indexName newIndexName : String) :
    ReindexSavedObject :=
  { id := freshId, version := 1,
    attributes :=
      { indexName := indexName, newIndexName := newIndexName,
        status := .inProgress, lastCompletedStep := .created,
        locked := none, reindexTaskId := none,
        reindexTaskPercComplete := none, errorMessage := none } }

/-- `createReindexOperation` (src/unnamed/part_006 lines 532–550): 404
when the index does not exist; when a prior operation exists, the first
found record is deleted if `failed` (then creation proceeds) and
otherwise a `badImplementation` error is thrown; creation builds the
fresh record (`actions.createReindexOp`, modelled from the spec, with
the destination name generated as in `getNewIndexName`).  `existing` is
the store's find result for the index, `freshId` the id the store
assigns to the created record. -/
def createReindexOperation (env : ClusterEnv) (freshId : String)
    (existing : List ReindexSavedObject) (indexName : String) :
    Except BoomError ReindexSavedObject × List StoreCall :=
  if !(env.indexExists indexName) then
    (.error (.notFound ("Index " ++ indexName ++ " does not exist in this cluster.")), [])
  else
    match existing with
    | [] =>
      match V0.getNewIndexName env.indexExists indexName with
      | .error e => (.error e, [])
      | .ok newName => (.ok (newReindexOp freshId indexName newName), [.createOp indexName])
    | existingOp :: _ =>
      if existingOp.attributes.status = .failed then
        match V0.getNewIndexName env.indexExists indexName with
        | .error e => (.error e, [.deleteOp existingOp.id])
        | .ok newName =>
          (.ok (newReindexOp freshId indexName newName),
           [.deleteOp existingOp.id, .createOp indexName])
      else
        (.error (.badImplementation ("A reindex operation already in-progress for " ++ indexName)),
         [])

end Svc

namespace Worker

open Reindex

/-- The `ReindexWorker` constructor guard (src/unnamed/part_006 lines
41–56): the class keeps a static `workerSingleton`; constructing while it
is set throws before anything else happens, and a successful construction
stores the new instance in the singleton slot.  Worker instances are
identified by an opaque tag.  Returns the constructor's outcome together
with the singleton slot after the call. -/
def construct (workerSingleton : Option Nat) (instanceTag : Nat) :
    Except BoomError Nat × Option Nat :=
  match workerSingleton with
  | some w => (.error (.plainError "More than one ReindexWorker cannot be created."), some w)
  | none => (.ok instanceTag, some instanceTag)

end Worker

namespace Samples

open Reindex

/-- A cluster environment with benign defaults, overridden per scenario. -/
def baseEnv : Svc.ClusterEnv where
  indexExists := fun _ => false
  nodes := []
  mlEnableAck := true
  mlDisableAck := true
  settingsAck := true
  flatSettingsExist := fun _ => true
  createAck := true
  booleanFieldPaths := fun _ => []
  reindexTask := "abc123"
  taskResponse := fun _ =>
    { completed := false, status := { created := 0, total := 1 }, failures := [] }
  deleteTaskResult := fun _ => "deleted"
  aliases := fun _ => []
  aliasAck := true
  isMlIndex := fun _ => false

/-- A concrete operation record for the `logs-2019` scenario of spec §8. -/
def sampleOp (status : ReindexStatus) (step : ReindexStep) (locked : Option Int) :
    ReindexSavedObject :=
  { id := "op-1", version := 1,
    attributes :=
      { indexName := "logs-2019", newIndexName := "logs-2019-reindex-0",
        status := status, lastCompletedStep := step, locked := locked,
        reindexTaskId := some "abc123", reindexTaskPercComplete := some 0,
        errorMessage := none } }

end Samples

open Reindex

/-- C9: once a worker instance occupies the singleton slot, every further
constructor invocation throws `More than one ReindexWorker cannot be
created.` and leaves the existing singleton in place; the first
construction from an empty slot succeeds and installs the instance. -/
theorem C9_worker_singleton_guard :
    (∀ w0 : Nat, Worker.construct none w0 = (.ok w0, some w0)) ∧
    (∀ (slot : Option Nat) (w0 w1 : Nat), slot = some w0 →
      (Worker.construct slot w1).1
          = .error (.plainError "More than one ReindexWorker cannot be created.")
        ∧ (Worker.construct slot w1).2 = some w0) := by
  refine ⟨fun w0 => rfl, fun slot w0 w1 h => ?_⟩
  subst h
  exact ⟨rfl, rfl⟩

/-- Witness for C9 at a concrete slot: a second construction after
installing worker `0` fails and keeps worker `0` installed. -/
theorem C9_worker_singleton_guard_witness :
    (Worker.construct (some 0) 1).1
        = .error (.plainError "More than one ReindexWorker cannot be created.")
      ∧ (Worker.construct (some 0) 1).2 = some 0 :=
  C9_worker_singleton_guard.2 (some 0) 0 1 rfl

/-- C1: evaluation of `V0.acquireLock` at concrete inputs.  With a lock
stamped at time 0 and an acquisition attempt at time 100 (the lock is 100
seconds old, hence stealable), the source steals the lock but — because
`moment#subtract` mutates `now` before `now.format()` is stored — stamps
`locked = 10 = now − LOCK_WINDOW` instead of the attempt time 100, so the
stolen lease is born already expired.  With a lock stamped at time 50
(only 50 seconds old) the attempt fails with `Conflict`. -/
theorem C1_acquireLock_steal_stamp_eval :
    (V0.acquireLock 100 (Samples.sampleOp .inProgress .created (some 0))).map
        (fun r => r.attributes.locked) = .ok (some 10)
    ∧ ((some 10 : Option Int) ≠ some 100)
    ∧ V0.acquireLock 100 (Samples.sampleOp .inProgress .created (some 50))
        = .error (.conflict "Another Kibana process is currently modifying this reindex operation.") := by
  refine ⟨rfl, by decide, rfl⟩

/-- An environment in which every index name exists in the cluster. -/
def envAllExist : Svc.ClusterEnv := { Samples.baseEnv with indexExists := fun _ => true }

/-- Counterexample for C2: with an existing operation whose status is
`inProgress`, `createReindexOperation` throws `Boom.badImplementation`
(an internal server error), not `Conflict` as the claim states. -/
theorem C2_conflict_counterexample :
    (Svc.createReindexOperation envAllExist "op-2"
        [Samples.sampleOp .inProgress .created none] "logs-2019").1
      = .error (.badImplementation "A reindex operation already in-progress for logs-2019")
    ∧ ¬ ∃ m, (Svc.createReindexOperation envAllExist "op-2"
        [Samples.sampleOp .inProgress .created none] "logs-2019").1
      = .error (.conflict m) := by
  refine ⟨rfl, ?_⟩
  rintro ⟨m, hm⟩
  rw [show (Svc.createReindexOperation envAllExist "op-2"
      [Samples.sampleOp .inProgress .created none] "logs-2019").1
      = .error (.badImplementation "A reindex operation already in-progress for logs-2019")
    from rfl] at hm
  injection hm with h2
  exact BoomError.noConfusion h2

/-- C2 (amended): `createReindexOperation` fails with `NotFound` when the
index does not exist (no store mutation); with a prior record whose
status is `failed` it deletes that record and creates and returns a fresh
one; with a prior record in any other status it fails with a
`badImplementation` (internal) error — not `Conflict` — deleting and
creating nothing. -/
theorem C2_createReindexOperation_behaviour (env : Svc.ClusterEnv)
    (freshId indexName : String) (existing : List ReindexSavedObject) :
    (env.indexExists indexName = false →
      Svc.createReindexOperation env freshId existing indexName
        = (.error (.notFound ("Index " ++ indexName ++ " does not exist in this cluster.")), []))
    ∧ (env.indexExists indexName = true →
        ∀ op0 rest, existing = op0 :: rest →
          ((op0.attributes.status = .failed →
             ∀ newName, V0.getNewIndexName env.indexExists indexName = .ok newName →
               Svc.createReindexOperation env freshId existing indexName
                 = (.ok (Svc.newReindexOp freshId indexName newName),
                    [.deleteOp op0.id, .createOp indexName]))
           ∧ (op0.attributes.status ≠ .failed →
               Svc.createReindexOperation env freshId existing indexName
                 = (.error (.badImplementation
                      ("A reindex operation already in-progress for " ++ indexName)), [])))) := by
  refine ⟨?_, ?_⟩
  · intro h
    simp [Svc.createReindexOperation, h]
  · intro h op0 rest hex
    subst hex
    refine ⟨?_, ?_⟩
    · intro hfail newName hnm
      simp [Svc.createReindexOperation, h, hfail, hnm]
    · intro hnfail
      simp [Svc.createReindexOperation, h, hnfail]

/-- An environment in which exactly the index `logs-2019` exists. -/
def envC2 : Svc.ClusterEnv :=
  { Samples.baseEnv with indexExists := fun s => s == "logs-2019" }

/-- Witness for C2 (amended) at concrete inputs: retrying over a `failed`
record for `logs-2019` deletes the old record and creates a fresh one
named `logs-2019-reindex-0`. -/
theorem C2_witness :
    envC2.indexExists "logs-2019" = true
    ∧ (Samples.sampleOp .failed .created none).attributes.status = .failed
    ∧ V0.getNewIndexName envC2.indexExists "logs-2019" = .ok "logs-2019-reindex-0"
    ∧ Svc.createReindexOperation envC2 "op-2"
        [Samples.sampleOp .failed .created none] "logs-2019"
      = (.ok (Svc.newReindexOp "op-2" "logs-2019" "logs-2019-reindex-0"),
         [.deleteOp "op-1", .createOp "logs-2019"]) := by
  refine ⟨by decide, rfl, rfl, ?_⟩
  exact (((C2_createReindexOperation_behaviour envC2 "op-2" "logs-2019"
      [Samples.sampleOp .failed .created none]).2 (by decide)
      (Samples.sampleOp .failed .created none) [] rfl).1 rfl
      "logs-2019-reindex-0" rfl)

/-- C4: `processNextStep` on a record at `reindexStarted` whose cluster
task is not yet complete leaves the step marker, status and all identity
fields unchanged and only updates `reindexTaskPercComplete` to
`created / total` from the task response (the lease stamp on `locked` is
cleared on exit as always); the ML counter is untouched. -/
theorem C4_poll_incomplete_idempotent (env : Svc.ClusterEnv) (ml now : Int)
    (op : ReindexSavedObject) (tid : String)
    (hfresh : Svc.isFreshLock now op.attributes.locked = false)
    (hstep : op.attributes.lastCompletedStep = .reindexStarted)
    (htid : op.attributes.reindexTaskId = some tid)
    (hcomp : (env.taskResponse tid).completed = false) :
    ∃ r', (Svc.processNextStep env ml now op).res = .ok r'
      ∧ r'.attributes.lastCompletedStep = .reindexStarted
      ∧ r'.attributes.status = op.attributes.status
      ∧ r'.attributes.errorMessage = op.attributes.errorMessage
      ∧ r'.attributes.indexName = op.attributes.indexName
      ∧ r'.attributes.newIndexName = op.attributes.newIndexName
      ∧ r'.attributes.reindexTaskId = op.attributes.reindexTaskId
      ∧ r'.attributes.reindexTaskPercComplete
          = some (((env.taskResponse tid).status.created : ℚ)
                   / ((env.taskResponse tid).status.total : ℚ))
      ∧ (Svc.processNextStep env ml now op).ml = ml := by
  obtain ⟨oid, over, onm, onew, ost, ostep, olock, otid, operc, oerr⟩ := op
  dsimp only at hstep htid hfresh
  subst hstep htid
  simp [Svc.processNextStep, Svc.stepBody, Svc.updateReindexStatus,
    Svc.lockStamp, Svc.clearLock, Reindex.upd, hfresh, hcomp]

/-- Environment for the C4 witness: the task reports 25 of 100 documents
copied and not yet complete. -/
def envC4 : Svc.ClusterEnv :=
  { Samples.baseEnv with
    taskResponse := fun _ =>
      { completed := false, status := { created := 25, total := 100 }, failures := [] } }

/-- Witness for C4 at a concrete record and environment: polling an
incomplete task moves only the completion percentage (to 1/4). -/
theorem C4_witness :
    Svc.isFreshLock 1000 (Samples.sampleOp .inProgress .reindexStarted none).attributes.locked
        = false
    ∧ (Samples.sampleOp .inProgress .reindexStarted none).attributes.lastCompletedStep
        = .reindexStarted
    ∧ (Samples.sampleOp .inProgress .reindexStarted none).attributes.reindexTaskId
        = some "abc123"
    ∧ (envC4.taskResponse "abc123").completed = false
    ∧ ∃ r',
        (Svc.processNextStep envC4 0 1000 (Samples.sampleOp .inProgress .reindexStarted none)).res
            = .ok r'
        ∧ r'.attributes.lastCompletedStep = .reindexStarted
        ∧ r'.attributes.status
            = (Samples.sampleOp .inProgress .reindexStarted none).attributes.status
        ∧ r'.attributes.errorMessage
            = (Samples.sampleOp .inProgress .reindexStarted none).attributes.errorMessage
        ∧ r'.attributes.indexName
            = (Samples.sampleOp .inProgress .reindexStarted none).attributes.indexName
        ∧ r'.attributes.newIndexName
            = (Samples.sampleOp .inProgress .reindexStarted none).attributes.newIndexName
        ∧ r'.attributes.reindexTaskId
            = (Samples.sampleOp .inProgress .reindexStarted none).attributes.reindexTaskId
        ∧ r'.attributes.reindexTaskPercComplete
            = some (((envC4.taskResponse "abc123").status.created : ℚ)
                     / ((envC4.taskResponse "abc123").status.total : ℚ))
        ∧ (Svc.processNextStep envC4 0 1000 (Samples.sampleOp .inProgress .reindexStarted none)).ml
            = 0 :=
  ⟨rfl, rfl, rfl, rfl,
    C4_poll_incomplete_idempotent envC4 0 1000
      (Samples.sampleOp .inProgress .reindexStarted none) "abc123" rfl rfl rfl rfl⟩

/-- C3: `processNextStep` at `reindexStarted` with a completed cluster
task.  If `created < total` the step fails: the marker stays at
`reindexStarted`, the status becomes `failed`, and the error message
contains an example failure from the task response.  If `created ≥ total`
(and the cluster acknowledges the deletion), the task record is deleted
from the `.tasks` index, the marker advances to `reindexCompleted` and
the percentage is set to 1. -/
theorem C3_task_completion_behaviour (env : Svc.ClusterEnv) (ml now : Int)
    (op : ReindexSavedObject) (tid : String)
    (hfresh : Svc.isFreshLock now op.attributes.locked = false)
    (hstep : op.attributes.lastCompletedStep = .reindexStarted)
    (htid : op.attributes.reindexTaskId = some tid)
    (hcomp : (env.taskResponse tid).completed = true) :
    ((env.taskResponse tid).status.created < (env.taskResponse tid).status.total →
      ∃ r', (Svc.processNextStep env ml now op).res = .ok r'
        ∧ r'.attributes.lastCompletedStep = .reindexStarted
        ∧ r'.attributes.status = .failed
        ∧ ∃ pre, r'.attributes.errorMessage
            = some (pre ++ (env.taskResponse tid).failures.headD "undefined"))
    ∧ ((env.taskResponse tid).status.total ≤ (env.taskResponse tid).status.created →
        env.deleteTaskResult tid = "deleted" →
        ∃ r', (Svc.processNextStep env ml now op).res = .ok r'
          ∧ r'.attributes.lastCompletedStep = .reindexCompleted
          ∧ r'.attributes.reindexTaskPercComplete = some 1
          ∧ Svc.ClusterCall.deleteTask ".tasks" tid ∈ (Svc.processNextStep env ml now op).calls) := by
  obtain ⟨oid, over, onm, onew, ost, ostep, olock, otid, operc, oerr⟩ := op
  dsimp only at hstep htid hfresh
  subst hstep htid
  constructor
  · intro hlt
    simp [Svc.processNextStep, Svc.stepBody, Svc.updateReindexStatus,
      Svc.lockStamp, Svc.clearLock, Svc.failStamp, Reindex.upd,
      Reindex.renderError, Reindex.BoomError.message, hfresh, hcomp, hlt]
    exact ⟨"Error: Reindexing failed with failures like: ", by rfl⟩
  · intro hle hdel
    have hnlt : ¬((env.taskResponse tid).status.created < (env.taskResponse tid).status.total) :=
      not_lt.mpr hle
    simp [Svc.processNextStep, Svc.stepBody, Svc.updateReindexStatus,
      Svc.lockStamp, Svc.clearLock, Reindex.upd, hfresh, hcomp, hnlt, hdel]

/-- Environment for the C3 witness: the task has completed with 95 of 100
documents created and one failure (spec §8 scenario 3). -/
def envC3 : Svc.ClusterEnv :=
  { Samples.baseEnv with
    taskResponse := fun _ =>
      { completed := true, status := { created := 95, total := 100 },
        failures := ["\x7b\"cause\":\"x\"\x7d"] } }

/-- Witness for C3 at the spec's scenario-3 inputs: the step fails in
place with the example failure in the error message. -/
theorem C3_witness :
    Svc.isFreshLock 1000 (Samples.sampleOp .inProgress .reindexStarted none).attributes.locked
        = false
    ∧ (Samples.sampleOp .inProgress .reindexStarted none).attributes.lastCompletedStep
        = .reindexStarted
    ∧ (Samples.sampleOp .inProgress .reindexStarted none).attributes.reindexTaskId
        = some "abc123"
    ∧ (envC3.taskResponse "abc123").completed = true
    ∧ (envC3.taskResponse "abc123").status.created < (envC3.taskResponse "abc123").status.total
    ∧ ∃ r',
        (Svc.processNextStep envC3 0 1000 (Samples.sampleOp .inProgress .reindexStarted none)).res
            = .ok r'
        ∧ r'.attributes.lastCompletedStep = .reindexStarted
        ∧ r'.attributes.status = .failed
        ∧ ∃ pre, r'.attributes.errorMessage
            = some (pre ++ (envC3.taskResponse "abc123").failures.headD "undefined") :=
  ⟨rfl, rfl, rfl, rfl, by decide,
    (C3_task_completion_behaviour envC3 0 1000
      (Samples.sampleOp .inProgress .reindexStarted none) "abc123" rfl rfl rfl rfl).1
      (by decide)⟩

/-- C5: the `reindexCompleted → aliasCreated` step issues exactly one
alias-update call whose action list is the new `indexName → newIndexName`
alias, removal of the source index, and one re-attaching add (properties
preserved) per alias previously attached to the source; on
acknowledgement the marker advances to `aliasCreated` and non-ML indices
complete (ML indices stay `inProgress`). -/
theorem C5_switchAlias_behaviour (env : Svc.ClusterEnv) (ml now : Int)
    (op : ReindexSavedObject)
    (hfresh : Svc.isFreshLock now op.attributes.locked = false)
    (hstep : op.attributes.lastCompletedStep = .reindexCompleted)
    (hack : env.aliasAck = true) :
    (Svc.processNextStep env ml now op).calls
        = [Svc.ClusterCall.getAlias op.attributes.indexName,
           Svc.ClusterCall.updateAliases
             ([Svc.AliasAction.add op.attributes.newIndexName op.attributes.indexName [],
               Svc.AliasAction.removeIndex op.attributes.indexName]
              ++ (env.aliases op.attributes.indexName).map
                   (fun p => Svc.AliasAction.add op.attributes.newIndexName p.1 p.2))]
    ∧ (∀ p ∈ env.aliases op.attributes.indexName,
        Svc.AliasAction.add op.attributes.newIndexName p.1 p.2
          ∈ ([Svc.AliasAction.add op.attributes.newIndexName op.attributes.indexName [],
              Svc.AliasAction.removeIndex op.attributes.indexName]
             ++ (env.aliases op.attributes.indexName).map
                  (fun p => Svc.AliasAction.add op.attributes.newIndexName p.1 p.2)))
    ∧ ∃ r', (Svc.processNextStep env ml now op).res = .ok r'
        ∧ r'.attributes.lastCompletedStep = .aliasCreated
        ∧ (env.isMlIndex op.attributes.indexName = false → r'.attributes.status = .completed)
        ∧ (env.isMlIndex op.attributes.indexName = true → r'.attributes.status = .inProgress) := by
  obtain ⟨oid, over, onm, onew, ost, ostep, olock, otid, operc, oerr⟩ := op
  dsimp only at hstep hfresh
  subst hstep
  refine ⟨?_, ?_, ?_⟩
  · simp [Svc.processNextStep, Svc.stepBody, Svc.switchAlias, Svc.switchAliasActions,
      Svc.lockStamp, Svc.clearLock, Reindex.upd, hfresh, hack]
  · intro p hp
    simp only [List.cons_append, List.nil_append, List.mem_cons, List.mem_map]
    exact Or.inr (Or.inr ⟨p, hp, rfl⟩)
  · cases hml : env.isMlIndex onm <;>
      simp [Svc.processNextStep, Svc.stepBody, Svc.switchAlias, Svc.switchAliasActions,
        Svc.lockStamp, Svc.clearLock, Reindex.upd, hfresh, hack, hml]

/-- Environment for the C5 witness: the source index carries one existing
alias `myalias` with a filter property. -/
def envC5 : Svc.ClusterEnv :=
  { Samples.baseEnv with
    aliases := fun _ => [("myalias", [("filter", "term:foo")])] }

/-- Witness for C5 at a concrete record and environment: the single
atomic alias-update call carries the new alias, the source removal and
the re-attached `myalias`, and the non-ML record completes. -/
theorem C5_witness :
    Svc.isFreshLock 1000 (Samples.sampleOp .inProgress .reindexCompleted none).attributes.locked
        = false
    ∧ (Samples.sampleOp .inProgress .reindexCompleted none).attributes.lastCompletedStep
        = .reindexCompleted
    ∧ envC5.aliasAck = true
    ∧ (Svc.processNextStep envC5 0 1000 (Samples.sampleOp .inProgress .reindexCompleted none)).calls
        = [Svc.ClusterCall.getAlias "logs-2019",
           Svc.ClusterCall.updateAliases
             ([Svc.AliasAction.add "logs-2019-reindex-0" "logs-2019" [],
               Svc.AliasAction.removeIndex "logs-2019"]
              ++ (envC5.aliases "logs-2019").map
                   (fun p => Svc.AliasAction.add "logs-2019-reindex-0" p.1 p.2))]
    ∧ ∃ r',
        (Svc.processNextStep envC5 0 1000 (Samples.sampleOp .inProgress .reindexCompleted none)).res
            = .ok r'
        ∧ r'.attributes.lastCompletedStep = .aliasCreated
        ∧ (envC5.isMlIndex "logs-2019" = false → r'.attributes.status = .completed) := by
  have h := C5_switchAlias_behaviour envC5 0 1000
    (Samples.sampleOp .inProgress .reindexCompleted none) rfl rfl rfl
  obtain ⟨r', hres, hstep, hml, _⟩ := h.2.2
  exact ⟨rfl, rfl, rfl, h.1, r', hres, hstep, hml⟩

/-- C6: the `aliasCreated → mlUpgradeModeUnset` step.  For a non-ML index
the ML counter and ML endpoint are untouched and the record completes.
For an ML index the counter is decremented by one and the ML endpoint is
called with `enabled=false` exactly when the counter has reached zero
after the decrement; whenever the step succeeds (i.e. unless that call
is needed and unacknowledged) the record's status becomes `completed`
and its marker `mlUpgradeModeUnset`. -/
theorem C6_unsetMlUpgradeMode_behaviour (env : Svc.ClusterEnv) (ml now : Int)
    (op : ReindexSavedObject)
    (hfresh : Svc.isFreshLock now op.attributes.locked = false)
    (hstep : op.attributes.lastCompletedStep = .aliasCreated) :
    (env.isMlIndex op.attributes.indexName = false →
      (Svc.processNextStep env ml now op).ml = ml
      ∧ (∀ b, Svc.ClusterCall.mlSetUpgradeMode b ∉ (Svc.processNextStep env ml now op).calls)
      ∧ ∃ r', (Svc.processNextStep env ml now op).res = .ok r'
          ∧ r'.attributes.status = .completed
          ∧ r'.attributes.lastCompletedStep = .mlUpgradeModeUnset)
    ∧ (env.isMlIndex op.attributes.indexName = true →
        (Svc.processNextStep env ml now op).ml = ml - 1
        ∧ (Svc.ClusterCall.mlSetUpgradeMode false ∈ (Svc.processNextStep env ml now op).calls
             ↔ ml - 1 = 0)
        ∧ ((ml - 1 = 0 → env.mlDisableAck = true) →
            ∃ r', (Svc.processNextStep env ml now op).res = .ok r'
              ∧ r'.attributes.status = .completed
              ∧ r'.attributes.lastCompletedStep = .mlUpgradeModeUnset)) := by
  obtain ⟨oid, over, onm, onew, ost, ostep, olock, otid, operc, oerr⟩ := op
  dsimp only at hstep hfresh
  subst hstep
  constructor
  · intro hml
    simp [Svc.processNextStep, Svc.stepBody, Svc.unsetMlUpgradeMode,
      Svc.lockStamp, Svc.clearLock, Reindex.upd, hfresh, hml]
  · intro hml
    by_cases hz : ml - 1 = 0
    · cases hd : env.mlDisableAck
      · refine ⟨?_, ?_, ?_⟩
        · simp [Svc.processNextStep, Svc.stepBody, Svc.unsetMlUpgradeMode,
            Svc.lockStamp, Svc.clearLock, Svc.failStamp, Reindex.upd, hfresh, hml, hz, hd]
        · simp [Svc.processNextStep, Svc.stepBody, Svc.unsetMlUpgradeMode,
            Svc.lockStamp, Svc.clearLock, Svc.failStamp, Reindex.upd, hfresh, hml, hz, hd]
        · intro hcond
          exact absurd (hcond hz) (by decide)
      · simp [Svc.processNextStep, Svc.stepBody, Svc.unsetMlUpgradeMode,
          Svc.lockStamp, Svc.clearLock, Reindex.upd, hfresh, hml, hz, hd]
    · simp [Svc.processNextStep, Svc.stepBody, Svc.unsetMlUpgradeMode,
        Svc.lockStamp, Svc.clearLock, Reindex.upd, hfresh, hml, hz]

/-- Environment for the C6 witness: the index is an ML-system index and
the ML endpoint acknowledges. -/
def envC6 : Svc.ClusterEnv := { Samples.baseEnv with isMlIndex := fun _ => true }

/-- Witness for C6 at a concrete record with ML counter 1: the counter
drops to 0, `enabled=false` is called, and the record completes. -/
theorem C6_witness :
    Svc.isFreshLock 1000 (Samples.sampleOp .inProgress .aliasCreated none).attributes.locked
        = false
    ∧ (Samples.sampleOp .inProgress .aliasCreated none).attributes.lastCompletedStep
        = .aliasCreated
    ∧ envC6.isMlIndex
        (Samples.sampleOp .inProgress .aliasCreated none).attributes.indexName = true
    ∧ (Svc.processNextStep envC6 1 1000 (Samples.sampleOp .inProgress .aliasCreated none)).ml
        = 1 - 1
    ∧ (Svc.ClusterCall.mlSetUpgradeMode false
        ∈ (Svc.processNextStep envC6 1 1000 (Samples.sampleOp .inProgress .aliasCreated none)).calls
        ↔ (1 : Int) - 1 = 0)
    ∧ ∃ r',
        (Svc.processNextStep envC6 1 1000 (Samples.sampleOp .inProgress .aliasCreated none)).res
            = .ok r'
        ∧ r'.attributes.status = .completed
        ∧ r'.attributes.lastCompletedStep = .mlUpgradeModeUnset := by
  have h := (C6_unsetMlUpgradeMode_behaviour envC6 1 1000
    (Samples.sampleOp .inProgress .aliasCreated none) rfl rfl).2 rfl
  exact ⟨rfl, rfl, rfl, h.1, h.2.1, h.2.2 (fun _ => rfl)⟩

/-- The trap's error rendering is never the empty string (it starts with
the error class name). -/
lemma renderError_ne_empty (e : BoomError) : Reindex.renderError e ≠ "" := by
  intro h
  have h7 : ("Error: " ++ e.message).length = ("" : String).length := by
    rw [show ("Error: " ++ e.message) = Reindex.renderError e from rfl, h]
  rw [String.length_append] at h7
  have hsev : ("Error: " : String).length = 7 := rfl
  have hz : ("" : String).length = 0 := rfl
  omega

/-- A successful step body never sets `status = failed`: it either leaves
the status untouched or writes `completed` / `inProgress`. -/
lemma stepBody_ok_status (env : Svc.ClusterEnv) (ml : Int) (op b : ReindexSavedObject)
    (h : (Svc.stepBody env ml op).res = .ok b) :
    b.attributes.status = op.attributes.status
    ∨ b.attributes.status = .completed ∨ b.attributes.status = .inProgress := by
  obtain ⟨oid, over, onm, onew, ost, ostep, olock, otid, operc, oerr⟩ := op
  cases ostep <;>
    (simp only [Svc.stepBody, Svc.setMlUpgradeMode, Svc.setReadonly, Svc.createNewIndex,
        Svc.startReindexing, Svc.updateReindexStatus, Svc.switchAlias, Svc.unsetMlUpgradeMode] at h
     repeat' split at h) <;>
    first
      | exact Except.noConfusion h
      | (injection h with hb; subst hb; simp [Reindex.upd])

/-- C7: any error thrown inside a step body of `processNextStep` is
trapped — the returned record has `status = failed` and a non-empty
`errorMessage` (the error's rendering), and cleanup of cluster-side
changes is invoked for the source index; moreover a record can only come
out of `processNextStep` with `status = failed` if it already was
`failed` or carries a non-empty `errorMessage`. -/
theorem C7_step_error_trapped (env : Svc.ClusterEnv) (ml now : Int)
    (op : ReindexSavedObject)
    (hfresh : Svc.isFreshLock now op.attributes.locked = false) :
    (∀ e, (Svc.stepBody env ml (Svc.lockStamp now op)).res = .error e →
      ∃ r', (Svc.processNextStep env ml now op).res = .ok r'
        ∧ r'.attributes.status = .failed
        ∧ r'.attributes.errorMessage = some (Reindex.renderError e)
        ∧ Reindex.renderError e ≠ ""
        ∧ Svc.ClusterCall.cleanup op.attributes.indexName
            ∈ (Svc.processNextStep env ml now op).calls)
    ∧ (∀ r', (Svc.processNextStep env ml now op).res = .ok r' →
        r'.attributes.status = .failed →
        op.attributes.status = .failed
        ∨ ∃ s, r'.attributes.errorMessage = some s ∧ s ≠ "") := by
  constructor
  · intro e he
    have hkey : Svc.processNextStep env ml now op
        = { res := Except.ok (Svc.clearLock (Svc.failStamp e (Svc.lockStamp now op))),
            ml := (Svc.stepBody env ml (Svc.lockStamp now op)).ml,
            calls := (Svc.stepBody env ml (Svc.lockStamp now op)).calls
                      ++ [Svc.ClusterCall.cleanup op.attributes.indexName] } := by
      simp only [Svc.processNextStep, hfresh, Bool.false_eq_true, if_false]
      rw [he]
    refine ⟨Svc.clearLock (Svc.failStamp e (Svc.lockStamp now op)), ?_, ?_, ?_,
        renderError_ne_empty e, ?_⟩
    · rw [hkey]
    · simp [Svc.clearLock, Svc.failStamp, Reindex.upd]
    · simp [Svc.clearLock, Svc.failStamp, Reindex.upd]
    · rw [hkey]
      simp
  · intro r' hres hfail
    cases hb : (Svc.stepBody env ml (Svc.lockStamp now op)).res with
    | error e =>
      simp only [Svc.processNextStep, hfresh, Bool.false_eq_true, if_false] at hres
      simp only [hb] at hres
      injection hres with hr
      subst hr
      refine Or.inr ⟨Reindex.renderError e, ?_, renderError_ne_empty e⟩
      simp [Svc.clearLock, Svc.failStamp, Reindex.upd]
    | ok b =>
      simp only [Svc.processNextStep, hfresh, Bool.false_eq_true, if_false] at hres
      simp only [hb] at hres
      injection hres with hr
      subst hr
      simp only [Svc.clearLock, Reindex.upd] at hfail
      rcases stepBody_ok_status env ml (Svc.lockStamp now op) b hb with h1 | h1 | h1
      · simp only [Svc.lockStamp, Reindex.upd] at h1
        exact Or.inl (by rw [← h1]; exact hfail)
      · exact absurd (h1.symm.trans hfail) (by decide)
      · exact absurd (h1.symm.trans hfail) (by decide)

/-- Environment for the C7 witness: the readonly settings call is not
acknowledged, so the `mlUpgradeModeSet → readonly` step body throws. -/
def envC7 : Svc.ClusterEnv := { Samples.baseEnv with settingsAck := false }

/-- Witness for C7 at a concrete record and environment: the readonly
failure is trapped into `status = failed` with a non-empty message and
cleanup of `logs-2019` runs. -/
theorem C7_witness :
    Svc.isFreshLock 1000 (Samples.sampleOp .inProgress .mlUpgradeModeSet none).attributes.locked
        = false
    ∧ (Svc.stepBody envC7 0
          (Svc.lockStamp 1000 (Samples.sampleOp .inProgress .mlUpgradeModeSet none))).res
        = .error (.plainError "Index could not be set to readonly.")
    ∧ ∃ r',
        (Svc.processNextStep envC7 0 1000 (Samples.sampleOp .inProgress .mlUpgradeModeSet none)).res
            = .ok r'
        ∧ r'.attributes.status = .failed
        ∧ r'.attributes.errorMessage
            = some (Reindex.renderError (.plainError "Index could not be set to readonly."))
        ∧ Reindex.renderError (.plainError "Index could not be set to readonly.") ≠ ""
        ∧ Svc.ClusterCall.cleanup
              (Samples.sampleOp .inProgress .mlUpgradeModeSet none).attributes.indexName
            ∈ (Svc.processNextStep envC7 0 1000
                (Samples.sampleOp .inProgress .mlUpgradeModeSet none)).calls :=
  ⟨rfl, rfl,
    (C7_step_error_trapped envC7 0 1000
        (Samples.sampleOp .inProgress .mlUpgradeModeSet none) rfl).1
      (.plainError "Index could not be set to readonly.") rfl⟩

/-- If every candidate in the attempt list already exists, the name
generation loop falls through to the error. -/
lemma getNewIndexNameAux_all_exist (ex : String → Bool) (ind : String) :
    ∀ l : List Nat, (∀ i ∈ l, ex (V0.candidateName ind i) = true) →
      V0.getNewIndexNameAux ex ind l
        = .error (.plainError
            "Could not generate an indexName that does not already exist after 100 attempts.") := by
  intro l
  induction l with
  | nil => intro _; rfl
  | cons j rest ih =>
    intro h
    have hj := h j (List.mem_cons_self j rest)
    simp [V0.getNewIndexNameAux, hj,
      ih (fun i hi => h i (List.mem_cons_of_mem j hi))]

/-- If the name generation loop fell through to the error, every
candidate in the attempt list already existed. -/
lemma getNewIndexNameAux_error_all (ex : String → Bool) (ind : String) :
    ∀ (l : List Nat) (e : Reindex.BoomError),
      V0.getNewIndexNameAux ex ind l = .error e →
      ∀ i ∈ l, ex (V0.candidateName ind i) = true := by
  intro l
  induction l with
  | nil =>
    intro e _ i hi
    simp at hi
  | cons j rest ih =>
    intro e h i hi
    by_cases hj : ex (V0.candidateName ind j) = true
    · simp only [V0.getNewIndexNameAux, hj, if_true] at h
      rcases List.mem_cons.mp hi with rfl | hi'
      · exact hj
      · exact ih e h i hi'
    · have hj' : ex (V0.candidateName ind j) = false := by
        revert hj; cases ex (V0.candidateName ind j) <;> simp
      simp only [V0.getNewIndexNameAux, hj', Bool.false_eq_true, if_false] at h
      exact Except.noConfusion h

/-- A successful run of the loop over `range' a b` returns the candidate
of the least admissible index: every smaller index in the scanned window
already existed. -/
lemma getNewIndexNameAux_ok_range (ex : String → Bool) (ind : String) :
    ∀ (b a : Nat) (s : String),
      V0.getNewIndexNameAux ex ind (List.range' a b) = .ok s →
      ∃ m, a ≤ m ∧ m < a + b ∧ s = V0.candidateName ind m
        ∧ ex (V0.candidateName ind m) = false
        ∧ ∀ k, a ≤ k → k < m → ex (V0.candidateName ind k) = true := by
  intro b
  induction b with
  | zero =>
    intro a s h
    exact absurd h (by simp [List.range', V0.getNewIndexNameAux])
  | succ b ih =>
    intro a s h
    rw [List.range'_succ] at h
    by_cases ha : ex (V0.candidateName ind a) = true
    · simp only [V0.getNewIndexNameAux, ha, if_true] at h
      obtain ⟨m, ham, hmb, hs, hmf, hk⟩ := ih (a + 1) s h
      refine ⟨m, by omega, by omega, hs, hmf, fun k hak hkm => ?_⟩
      rcases Nat.eq_or_lt_of_le hak with rfl | hlt
      · exact ha
      · exact hk k (by omega) hkm
    · have ha' : ex (V0.candidateName ind a) = false := by
        revert ha; cases ex (V0.candidateName ind a) <;> simp
      simp only [V0.getNewIndexNameAux, ha', Bool.false_eq_true, if_false] at h
      injection h with hs
      exact ⟨a, le_refl a, by omega, hs.symm, ha', fun k hak hkm => by omega⟩

/-- C8: `getNewIndexName` returns `{indexName}-reindex-{n}` for the
smallest `n` (within the 100-attempt window) whose candidate does not
already exist in the cluster, and fails with an error when all of
`n = 0..99` are taken. -/
theorem C8_getNewIndexName_least (ex : String → Bool) (ind : String) :
    ((∃ n, n < 100 ∧ ex (V0.candidateName ind n) = false) →
      ∃ m, m < 100 ∧ ex (V0.candidateName ind m) = false
        ∧ (∀ k, k < m → ex (V0.candidateName ind k) = true)
        ∧ V0.getNewIndexName ex ind = .ok (V0.candidateName ind m))
    ∧ ((∀ n, n < 100 → ex (V0.candidateName ind n) = true) →
        V0.getNewIndexName ex ind
          = .error (.plainError
              "Could not generate an indexName that does not already exist after 100 attempts.")) := by
  constructor
  · rintro ⟨n, hn, hne⟩
    cases h : V0.getNewIndexName ex ind with
    | error e =>
      have hall := getNewIndexNameAux_error_all ex ind (List.range 100) e h n
        (List.mem_range.mpr hn)
      rw [hall] at hne
      exact absurd hne (by decide)
    | ok s =>
      have h' : V0.getNewIndexNameAux ex ind (List.range' 0 100) = .ok s := by
        rw [← List.range_eq_range']
        exact h
      obtain ⟨m, _, hmb, hs, hmf, hk⟩ := getNewIndexNameAux_ok_range ex ind 100 0 s h'
      exact ⟨m, by omega, hmf, fun k hkm => hk k (Nat.zero_le k) hkm, by rw [hs]⟩
  · intro hall
    exact getNewIndexNameAux_all_exist ex ind (List.range 100)
      (fun i hi => hall i (List.mem_range.mp hi))

/-- Witness for C8: when only `idx-reindex-0` is taken, generation
returns the least free candidate. -/
theorem C8_witness :
    (∃ n, n < 100
      ∧ (fun s => s == "idx-reindex-0") (V0.candidateName "idx" n) = false)
    ∧ ∃ m, m < 100
        ∧ (fun s => s == "idx-reindex-0") (V0.candidateName "idx" m) = false
        ∧ (∀ k, k < m → (fun s => s == "idx-reindex-0") (V0.candidateName "idx" k) = true)
        ∧ V0.getNewIndexName (fun s => s == "idx-reindex-0") "idx"
            = .ok (V0.candidateName "idx" m) :=
  ⟨⟨1, by decide, by decide⟩,
    (C8_getNewIndexName_least (fun s => s == "idx-reindex-0") "idx").1
      ⟨1, by decide, by decide⟩⟩

/-- The lease stamp does not move the step marker. -/
lemma lockStamp_step (now : Int) (op : ReindexSavedObject) :
    (Svc.lockStamp now op).attributes.lastCompletedStep
      = op.attributes.lastCompletedStep := rfl

/-- The lease stamp does not move the status. -/
lemma lockStamp_status (now : Int) (op : ReindexSavedObject) :
    (Svc.lockStamp now op).attributes.status = op.attributes.status := rfl

/-- Releasing the lease does not move the step marker. -/
lemma clearLock_step (op : ReindexSavedObject) :
    (Svc.clearLock op).attributes.lastCompletedStep
      = op.attributes.lastCompletedStep := rfl

/-- Releasing the lease does not move the status. -/
lemma clearLock_status (op : ReindexSavedObject) :
    (Svc.clearLock op).attributes.status = op.attributes.status := rfl

/-- The trap's write does not move the step marker. -/
lemma failStamp_step (e : BoomError) (op : ReindexSavedObject) :
    (Svc.failStamp e op).attributes.lastCompletedStep
      = op.attributes.lastCompletedStep := rfl

/-- The trap's write sets the status to `failed`. -/
lemma failStamp_status (e : BoomError) (op : ReindexSavedObject) :
    (Svc.failStamp e op).attributes.status = .failed := rfl

/-- At the terminal step the `switch` takes the `default` branch and the
step body returns the record untouched with no cluster calls. -/
lemma stepBody_terminal (env : Svc.ClusterEnv) (ml : Int) (op : ReindexSavedObject)
    (h : op.attributes.lastCompletedStep = .mlUpgradeModeUnset) :
    Svc.stepBody env ml op = { res := .ok op, ml := ml, calls := [] } := by
  obtain ⟨oid, over, onm, onew, ost, ostep, olock, otid, operc, oerr⟩ := op
  dsimp only at h
  subst h
  rfl

/-- A successful step body either advances the marker by exactly one
position, or leaves marker and status unchanged — and the latter happens
only at `reindexStarted` (incomplete task) or at the terminal step. -/
lemma stepBody_ok_cases (env : Svc.ClusterEnv) (ml : Int) (op b : ReindexSavedObject)
    (h : (Svc.stepBody env ml op).res = .ok b) :
    b.attributes.lastCompletedStep.ord = op.attributes.lastCompletedStep.ord + 1
    ∨ (b.attributes.lastCompletedStep = op.attributes.lastCompletedStep
       ∧ b.attributes.status = op.attributes.status
       ∧ (op.attributes.lastCompletedStep = .reindexStarted
          ∨ op.attributes.lastCompletedStep = .mlUpgradeModeUnset)) := by
  obtain ⟨oid, over, onm, onew, ost, ostep, olock, otid, operc, oerr⟩ := op
  cases ostep <;>
    (simp only [Svc.stepBody, Svc.setMlUpgradeMode, Svc.setReadonly, Svc.createNewIndex,
        Svc.startReindexing, Svc.updateReindexStatus, Svc.switchAlias,
        Svc.unsetMlUpgradeMode] at h
     repeat' split at h) <;>
    first
      | exact Except.noConfusion h
      | (injection h with hb; subst hb; simp [Reindex.upd, Reindex.ReindexStep.ord])

/-- C10: `processNextStep` never moves `lastCompletedStep` backwards.  A
run whose step body succeeds advances the marker by exactly one position,
or leaves it (and the status) unchanged only while polling an incomplete
reindex task or when already at the terminal step; a trapped step failure
leaves the marker at its prior value while setting `status = failed`; the
terminal `mlUpgradeModeUnset` record passes through the default branch
with marker and status unchanged. -/
theorem C10_processNextStep_monotone (env : Svc.ClusterEnv) (ml now : Int)
    (op : ReindexSavedObject)
    (hfresh : Svc.isFreshLock now op.attributes.locked = false) :
    ∃ r', (Svc.processNextStep env ml now op).res = .ok r'
      ∧ op.attributes.lastCompletedStep.ord ≤ r'.attributes.lastCompletedStep.ord
      ∧ (r'.attributes.lastCompletedStep.ord = op.attributes.lastCompletedStep.ord + 1
         ∨ (r'.attributes.lastCompletedStep = op.attributes.lastCompletedStep
            ∧ (r'.attributes.status = .failed
               ∨ op.attributes.lastCompletedStep = .reindexStarted
               ∨ op.attributes.lastCompletedStep = .mlUpgradeModeUnset)))
      ∧ (∀ e, (Svc.stepBody env ml (Svc.lockStamp now op)).res = .error e →
          r'.attributes.lastCompletedStep = op.attributes.lastCompletedStep
          ∧ r'.attributes.status = .failed)
      ∧ (op.attributes.lastCompletedStep = .mlUpgradeModeUnset →
          r'.attributes.lastCompletedStep = op.attributes.lastCompletedStep
          ∧ r'.attributes.status = op.attributes.status) := by
  cases hb : (Svc.stepBody env ml (Svc.lockStamp now op)).res with
  | error e =>
    have hkey : Svc.processNextStep env ml now op
        = { res := Except.ok (Svc.clearLock (Svc.failStamp e (Svc.lockStamp now op))),
            ml := (Svc.stepBody env ml (Svc.lockStamp now op)).ml,
            calls := (Svc.stepBody env ml (Svc.lockStamp now op)).calls
                      ++ [Svc.ClusterCall.cleanup op.attributes.indexName] } := by
      simp only [Svc.processNextStep, hfresh, Bool.false_eq_true, if_false]
      rw [hb]
    have hstep' : (Svc.clearLock (Svc.failStamp e (Svc.lockStamp now op))).attributes.lastCompletedStep
        = op.attributes.lastCompletedStep := rfl
    have hstat' : (Svc.clearLock (Svc.failStamp e (Svc.lockStamp now op))).attributes.status
        = .failed := rfl
    refine ⟨_, by rw [hkey], ?_, ?_, ?_, ?_⟩
    · rw [hstep']
    · exact Or.inr ⟨hstep', Or.inl hstat'⟩
    · intro e' _
      exact ⟨hstep', hstat'⟩
    · intro hterm
      have hok : (Svc.stepBody env ml (Svc.lockStamp now op)).res
          = .ok (Svc.lockStamp now op) := by
        rw [stepBody_terminal env ml (Svc.lockStamp now op)
          (by rw [lockStamp_step]; exact hterm)]
      exact absurd (hok.symm.trans hb) (fun h => Except.noConfusion h)
  | ok b =>
    have hkey : Svc.processNextStep env ml now op
        = { res := Except.ok (Svc.clearLock b),
            ml := (Svc.stepBody env ml (Svc.lockStamp now op)).ml,
            calls := (Svc.stepBody env ml (Svc.lockStamp now op)).calls } := by
      simp only [Svc.processNextStep, hfresh, Bool.false_eq_true, if_false]
      rw [hb]
    rcases stepBody_ok_cases env ml (Svc.lockStamp now op) b hb with h1 | ⟨h1, h2, h3⟩
    · rw [lockStamp_step] at h1
      refine ⟨Svc.clearLock b, by rw [hkey], ?_, ?_, ?_, ?_⟩
      · rw [clearLock_step]
        omega
      · left
        rw [clearLock_step]
        exact h1
      · intro e he
        exact Except.noConfusion he
      · intro hterm
        have hok : (Svc.stepBody env ml (Svc.lockStamp now op)).res
            = .ok (Svc.lockStamp now op) := by
          rw [stepBody_terminal env ml (Svc.lockStamp now op)
            (by rw [lockStamp_step]; exact hterm)]
        have hbb : Svc.lockStamp now op = b := by
          injection hok.symm.trans hb
        rw [← hbb, lockStamp_step] at h1
        exact absurd h1 (by omega)
    · rw [lockStamp_step] at h1 h3
      rw [lockStamp_status] at h2
      refine ⟨Svc.clearLock b, by rw [hkey], ?_, ?_, ?_, ?_⟩
      · rw [clearLock_step, h1]
      · right
        refine ⟨by rw [clearLock_step, h1], ?_⟩
        rcases h3 with h3 | h3
        · exact Or.inr (Or.inl h3)
        · exact Or.inr (Or.inr h3)
      · intro e he
        exact Except.noConfusion he
      · intro hterm
        exact ⟨by rw [clearLock_step, h1], by rw [clearLock_status, h2]⟩

/-- Witness for C10 at a concrete record (terminal step, unlocked) and
environment. -/
theorem C10_witness :
    Svc.isFreshLock 1000
        (Samples.sampleOp .completed .mlUpgradeModeUnset none).attributes.locked = false
    ∧ ∃ r',
        (Svc.processNextStep Samples.baseEnv 0 1000
            (Samples.sampleOp .completed .mlUpgradeModeUnset none)).res = .ok r'
        ∧ (Samples.sampleOp .completed .mlUpgradeModeUnset none).attributes.lastCompletedStep.ord
            ≤ r'.attributes.lastCompletedStep.ord
        ∧ (r'.attributes.lastCompletedStep.ord
              = (Samples.sampleOp .completed .mlUpgradeModeUnset none).attributes.lastCompletedStep.ord + 1
           ∨ (r'.attributes.lastCompletedStep
                = (Samples.sampleOp .completed .mlUpgradeModeUnset none).attributes.lastCompletedStep
              ∧ (r'.attributes.status = .failed
                 ∨ (Samples.sampleOp .completed .mlUpgradeModeUnset none).attributes.lastCompletedStep
                     = .reindexStarted
                 ∨ (Samples.sampleOp .completed .mlUpgradeModeUnset none).attributes.lastCompletedStep
                     = .mlUpgradeModeUnset)))
        ∧ (∀ e, (Svc.stepBody Samples.baseEnv 0
              (Svc.lockStamp 1000 (Samples.sampleOp .completed .mlUpgradeModeUnset none))).res
                = .error e →
            r'.attributes.lastCompletedStep
                = (Samples.sampleOp .completed .mlUpgradeModeUnset none).attributes.lastCompletedStep
            ∧ r'.attributes.status = .failed)
        ∧ ((Samples.sampleOp .completed .mlUpgradeModeUnset none).attributes.lastCompletedStep
              = .mlUpgradeModeUnset →
            r'.attributes.lastCompletedStep
                = (Samples.sampleOp .completed .mlUpgradeModeUnset none).attributes.lastCompletedStep
            ∧ r'.attributes.status
                = (Samples.sampleOp .completed .mlUpgradeModeUnset none).attributes.status) :=
  ⟨rfl, C10_processNextStep_monotone Samples.baseEnv 0 1000
    (Samples.sampleOp .completed .mlUpgradeModeUnset none) rfl⟩
